import Mathlib

/-!
Shallow Lean embedding of the foodtruck-cli orchestration core: the process
runner (`src/foodtruck_cli/utils/run_command.py`), the dependency checker
(`src/foodtruck_cli/commands/check/check.py` and `models.py`), the API service
lifecycle (`src/foodtruck_cli/commands/api/api.py` and `models.py`), the
project setup orchestrator (`src/foodtruck_cli/commands/setup/setup.py`,
`models.py`, `src/foodtruck_cli/utils/git.py`, `fs.py`) and the completion
commands (`src/foodtruck_cli/commands/completion/completion.py`).

The external world (subprocess spawning, the filesystem, environment
variables) is an oracle threaded through every operation as a value of type
`Env`; every operation also returns a trace of its observable effects
(commands spawned, console messages, files written), so that properties such
as "no subprocess is spawned" or "the up command is never invoked" are
stated as facts about the trace.
-/

namespace FoodTruck

/-! ## String helpers mirroring the Python primitives used by the sources -/

/-- Python `pat in s` on `List Char`: some contiguous run of `l` equals `pat`. -/
def listSub (pat : List Char) : List Char → Bool
  | [] => pat.isEmpty
  | c :: cs => pat.isPrefixOf (c :: cs) || listSub pat cs

/-- Python's substring test `pat in s`. -/
def pyIn (pat s : String) : Bool := listSub pat.data s.data

/-- Split a character list at every separator (a character satisfying `p`),
keeping empty pieces, as Python `str.split(sep)` does. -/
def splitCharList (p : Char → Bool) : List Char → List (List Char)
  | [] => [[]]
  | c :: cs =>
    if p c then [] :: splitCharList p cs
    else
      match splitCharList p cs with
      | [] => [[c]]
      | t :: ts => (c :: t) :: ts

/-- Python `str.strip()`: drop leading and trailing whitespace. -/
def pyStrip (s : String) : String :=
  ⟨((s.data.dropWhile Char.isWhitespace).reverse.dropWhile Char.isWhitespace).reverse⟩

/-- Python `str.lower()`. -/
def pyToLower (s : String) : String := ⟨s.data.map Char.toLower⟩

/-- Python `sep.join(parts)`. -/
def joinWith (sep : String) : List String → String
  | [] => ""
  | [x] => x
  | x :: xs => x ++ sep ++ joinWith sep xs

/-- How a Python f-string renders an `Optional[int]`. -/
def pyShowOptInt : Option Int → String
  | none => "None"
  | some n => toString n

/-! ## The external world and the effect trace -/

/-- Every way `subprocess.run(..., check=True, timeout=...)` can come back:
a finished process (any exit code), `TimeoutExpired`, `FileNotFoundError`,
`PermissionError`, or any other exception. -/
inductive SpawnOutcome where
  | exited (exitCode : Int) (stdout : String) (stderr : String)
  | timedOut
  | notFound
  | permissionDenied
  | otherError (msg : String)
deriving DecidableEq

/-- One observable effect: a spawned subprocess (argv, working directory,
timeout seconds), a console message, a filesystem change, a sleep, or a
`sys.exit`. -/
inductive TraceEvent where
  | spawned (cmd : List String) (cwd : Option String) (timeoutSec : Nat)
  | printedError (msg : String)
  | printedSuccess (msg : String)
  | printedInfo (msg : String)
  | printedWarning (msg : String)
  | printedSkip (msg : String)
  | printedStep (msg : String)
  | printedClone (msg : String)
  | printedTitle (msg : String)
  | printedSeparator
  | madeDir (path : String)
  | wroteFile (path : String)
  | removedFile (path : String)
  | slept (seconds : Nat)
  | exitedWith (code : Int)
deriving DecidableEq

/-- The argv lists of the subprocesses a trace spawned, in order: the
observer behind every "no command is invoked" statement. -/
def spawnedCmds (tr : List TraceEvent) : List (List String) :=
  tr.filterMap fun e =>
    match e with
    | .spawned c _ _ => some c
    | _ => none

/-- Whether a trace contains a `sys.exit`. -/
def hasExit (tr : List TraceEvent) : Bool :=
  tr.any fun e =>
    match e with
    | .exitedWith _ => true
    | _ => false

/-- The world the CLI runs against, queried but never mutated in memory:
subprocess results, filesystem facts, environment variables and platform
facts.  Every operation re-derives state through these oracles. -/
structure Env where
  /-- Outcome of spawning `cmd` in `cwd` with a given timeout in seconds. -/
  spawn : List String → Option String → Nat → SpawnOutcome
  /-- `sys.executable`. -/
  pythonExe : String
  /-- `pathlib.Path.exists()`. -/
  pathExists : String → Bool
  /-- `pathlib.Path.resolve()`. -/
  resolvePath : String → String
  /-- `pathlib.Path.iterdir()`, as the entry names. -/
  dirEntries : String → List String
  /-- The installed `foodtruck_cli` package directory
  (`Path(__file__).parent.parent.parent` of a command module). -/
  pkgDir : String
  /-- Text of a file read with `open(..., "r")`. -/
  readFile : String → String
  /-- `platform.system()`. -/
  platformSystem : String
  /-- `os.environ.get("SHELL")`. -/
  shellVar : Option String
  /-- `os.environ.get("APPDATA")`. -/
  appdata : Option String
  /-- `os.environ.get("POWERSHELL_PROFILE")`. -/
  powershellProfile : Option String
  /-- `Path.home()`. -/
  home : String
  /-- What `get_carapace_path()` finds: the carapace executable, if any. -/
  carapacePath : Option String
  /-- Whether the packaged `complete.yaml` spec file exists. -/
  specFileExists : Bool
  /-- When `some msg`, a filesystem write inside a `try` block raises an
  exception rendered as `msg`; `none` means writes succeed. -/
  fsWriteError : Option String

/-! ## ProcessRunner, as `src/foodtruck_cli/utils/run_command.py` writes it

`run_command(cmd, cwd)` returns a bare success `bool`, prints all detail to
the console, and hardcodes a 300-second timeout. -/

/-- The success flag `utils/run_command.py: run_command` derives from the
spawn outcome: only a clean exit code 0 succeeds (`check=True` raises
`CalledProcessError` on any other exit). -/
def run_command_success : SpawnOutcome → Bool
  | .exited code _ _ => code = 0
  | _ => false

/-- The console output of `utils/run_command.py: run_command` per spawn
outcome: meaningful stdout on success, and one branch of the
`try/except` ladder otherwise. -/
def run_command_prints (cmd : List String) (outcome : SpawnOutcome) :
    List TraceEvent :=
  match outcome with
  | .exited code out err =>
    if code = 0 then
      (if out != "" && pyStrip out != "" then [.printedSuccess (pyStrip out)] else [])
    else
      [.printedError ("Error running \x27" ++ joinWith " " cmd ++ "\x27: "
        ++ (if err != "" then pyStrip err
            else "Command failed with exit code " ++ toString code))]
  | .timedOut =>
    [.printedError ("Command \x27" ++ joinWith " " cmd
      ++ "\x27 timed out after 5 minutes")]
  | .notFound =>
    [.printedError ("Command \x27" ++ cmd.headD ""
      ++ "\x27 not found. Please ensure it\x27s installed and in your PATH")]
  | .permissionDenied =>
    [.printedError ("Permission denied when running \x27"
      ++ joinWith " " cmd ++ "\x27")]
  | .otherError msg =>
    [.printedError ("Unexpected error running \x27"
      ++ joinWith " " cmd ++ "\x27: " ++ msg)]

/-- `utils/run_command.py: run_command` — success flag plus the trace of the
spawn and console output.  An empty command fails fast without spawning;
no branch raises. -/
def run_command (env : Env) (cmd : List String) (cwd : Option String) :
    Bool × List TraceEvent :=
  if cmd.isEmpty then
    (false, [.printedError "No command provided"])
  else
    let outcome := env.spawn cmd cwd 300
    (run_command_success outcome,
     [.spawned cmd cwd 300] ++ run_command_prints cmd outcome)

/-! ## Python exceptions raised by the divergent drafts

`check/check.py` and `api/api.py` are written against a result-returning
runner, but their `from ...utils.run_command import run_command` resolves to
the bool-returning `utils/run_command.py` embedded above.  The resulting
`TypeError` (the probes pass a `timeout` keyword the function does not
accept) and `AttributeError` (`.success` read off the returned bool) are
denoted explicitly, so the embedding follows the program as it actually
runs. -/

/-- A Python exception escaping from, or caught inside, an embedded
function. -/
inductive PyError where
  | typeError (msg : String)
  | attributeError (msg : String)
deriving DecidableEq

/-- Python `str(e)` for these exceptions: the message text. -/
def pyErrorText : PyError → String
  | .typeError m => m
  | .attributeError m => m

/-- The `TypeError` raised by `run_command(..., timeout=30)`:
`utils/run_command.py: run_command(cmd, cwd=None)` accepts no `timeout`
parameter, so Python raises at the call itself, before any subprocess
work. -/
def timeout_kwarg_error : PyError :=
  .typeError "run_command() got an unexpected keyword argument \x27timeout\x27"

/-- The `AttributeError` raised by reading `.success` off the bool that
`utils/run_command.py: run_command` returns. -/
def bool_success_attribute_error : PyError :=
  .attributeError "\x27bool\x27 object has no attribute \x27success\x27"

/-! ## Dependency checker (`commands/check/models.py`, `commands/check/check.py`) -/

/-- `check/models.py: DependencyStatus`. -/
structure DependencyStatus where
  is_ok : Bool
  message : String
deriving DecidableEq

/-- `check/models.py: CheckResult` — the ordered per-dependency results and
the aggregate flag. -/
structure CheckResult where
  results : List (String × DependencyStatus)
  all_ok : Bool
deriving DecidableEq

/-- `CheckResult.from_results`: `all_ok` is the AND over every entry. -/
def CheckResult.from_results (results : List (String × DependencyStatus)) :
    CheckResult :=
  ⟨results, results.all (fun p => p.2.is_ok)⟩

/-- `check/check.py: check_python_version` — its first statement is
`run_command([sys.executable, "--version"], timeout=30)`, but the imported
`run_command` (utils/run_command.py) accepts no `timeout` parameter: Python
raises `TypeError` at the call, before any subprocess spawns, the exception
escapes the probe (no enclosing `try`), and the rest of the body (the
"Python 3.13" stdout check producing a `DependencyStatus`) is unreachable. -/
def check_python_version (_env : Env) :
    Except PyError DependencyStatus × List TraceEvent :=
  (.error timeout_kwarg_error, [])

/-- `check/check.py: check_uv` — `run_command(["uv", "--version"], timeout=30)`
raises the same `TypeError` at the call; the body past it is unreachable. -/
def check_uv (_env : Env) : Except PyError DependencyStatus × List TraceEvent :=
  (.error timeout_kwarg_error, [])

/-- `check/check.py: check_git` — `run_command(["git", "--version"], timeout=30)`
raises the same `TypeError` at the call; the body past it is unreachable. -/
def check_git (_env : Env) : Except PyError DependencyStatus × List TraceEvent :=
  (.error timeout_kwarg_error, [])

/-- `check/check.py: check_docker` — `run_command(["docker", "--version"],
timeout=30)` raises the same `TypeError` at the call; the body past it is
unreachable. -/
def check_docker (_env : Env) : Except PyError DependencyStatus × List TraceEvent :=
  (.error timeout_kwarg_error, [])

/-- `check/check.py: check_docker_daemon` — `run_command(["docker", "info"],
timeout=30)` raises the same `TypeError` at the call; the body past it is
unreachable. -/
def check_docker_daemon (_env : Env) :
    Except PyError DependencyStatus × List TraceEvent :=
  (.error timeout_kwarg_error, [])

/-- `check/check.py: perform_dependency_checks` — builds the results dict
entry by entry in declaration order and aggregates via
`CheckResult.from_results`; an exception from any probe propagates, so the
later probes and the aggregation are skipped from that point on.  (With the
probes as they are, the first entry always raises.) -/
def perform_dependency_checks (env : Env) :
    Except PyError CheckResult × List TraceEvent :=
  match check_python_version env with
  | (.error e, tp) => (.error e, tp)
  | (.ok p, tp) =>
    match check_uv env with
    | (.error e, tu) => (.error e, tp ++ tu)
    | (.ok u, tu) =>
      match check_git env with
      | (.error e, tg) => (.error e, tp ++ tu ++ tg)
      | (.ok g, tg) =>
        match check_docker env with
        | (.error e, td) => (.error e, tp ++ tu ++ tg ++ td)
        | (.ok d, td) =>
          match check_docker_daemon env with
          | (.error e, tdd) => (.error e, tp ++ tu ++ tg ++ td ++ tdd)
          | (.ok dd, tdd) =>
            (.ok (CheckResult.from_results
              [("Python 3.13", p), ("UV", u), ("Git", g), ("Docker", d),
               ("Docker Daemon", dd)]),
             tp ++ tu ++ tg ++ td ++ tdd)

/-! ## API service lifecycle (`commands/api/models.py`, `commands/api/api.py`) -/

/-- `api/models.py: ApiStatus`. -/
structure ApiStatus where
  is_running : Bool
  pid : Option Int
  port : Option Int
deriving DecidableEq

/-- `api/models.py: ApiOperationResult`. -/
structure ApiOperationResult where
  success : Bool
  message : String
  details : String
deriving DecidableEq

/-- `api/api.py: API_PROJECT_DIR = Path(__file__).parent.parent.parent /
"foodtruck-api"`. -/
def API_PROJECT_DIR (env : Env) : String := env.pkgDir ++ "/foodtruck-api"

/-- `api/api.py: API_PORT`. -/
def API_PORT : Int := 3000

/-- `api/api.py: DOCKER_COMPOSE_FILE_YML`. -/
def DOCKER_COMPOSE_FILE_YML (env : Env) : String :=
  API_PROJECT_DIR env ++ "/docker-compose.yml"

/-- `api/api.py: DOCKER_COMPOSE_FILE_YAML`. -/
def DOCKER_COMPOSE_FILE_YAML (env : Env) : String :=
  API_PROJECT_DIR env ++ "/docker-compose.yaml"

/-- The fixed `docker ps` listing query of `get_api_status`. -/
def api_ps_command : List String :=
  ["docker", "ps", "--filter", "name=foodtruck-api", "--format",
   "\x7b\x7b.ID\x7d\x7d \x7b\x7b.Status\x7d\x7d"]

/-- Python truthiness of `status.pid` in the f-string suffix
`f" with PID {status.pid}" if status.pid else ""`: `None` and `0` are falsy. -/
def pidSuffix : Option Int → String
  | none => ""
  | some p => if p = 0 then "" else " with PID " ++ toString p

/-- `api/api.py: get_api_status` — the body spawns the `docker ps` listing
query through `run_command` and then reads `result.success`; `run_command`
(utils/run_command.py) returns a bool, so that read raises `AttributeError`,
the surrounding `try/except` catches it and prints it, the container/pid
inspection is unreachable, and the function always reaches its final
`return ApiStatus(is_running=False)`.  No exception escapes. -/
def get_api_status (env : Env) : ApiStatus × List TraceEvent :=
  let r := run_command env api_ps_command none
  (⟨false, none, none⟩,
   r.2 ++ [.printedError ("Error checking API status: "
     ++ pyErrorText bool_success_attribute_error)])

/-- `api/api.py: _check_and_setup_project` — when the project directory is
missing, it spawns `foodtruck setup api` in the parent directory and then
reads `setup_result.success` off the returned bool: the `AttributeError` has
no enclosing `try/except` here, so it escapes (the error case); when the
directory exists the function returns `None` without any external call. -/
def _check_and_setup_project (env : Env) :
    Except PyError (Option ApiOperationResult) × List TraceEvent :=
  if !env.pathExists (API_PROJECT_DIR env) then
    let r := run_command env ["foodtruck", "setup", "api"] (some env.pkgDir)
    (.error bool_success_attribute_error,
     [.printedInfo "API project directory not found, setting up the project..."]
       ++ r.2)
  else (.ok none, [])

/-- `api/api.py: _check_docker_compose_file` — prefer the `.yaml` name when it
exists, then require the chosen file to exist. -/
def _check_docker_compose_file (env : Env) :
    Option ApiOperationResult × List TraceEvent :=
  let docker_compose_file :=
    if env.pathExists (DOCKER_COMPOSE_FILE_YAML env) then DOCKER_COMPOSE_FILE_YAML env
    else DOCKER_COMPOSE_FILE_YML env
  if !env.pathExists docker_compose_file then
    (some ⟨false, "Docker Compose file not found", docker_compose_file⟩, [])
  else (none, [])

/-- `api/api.py: _create_default_env_file` — when `.env` is missing, copy it
from `.env.example`, synthesizing the example first when it too is missing;
exceptions inside the `try` become a failure result. -/
def _create_default_env_file (env : Env) :
    Option ApiOperationResult × List TraceEvent :=
  let env_file := API_PROJECT_DIR env ++ "/.env"
  let env_example_file := API_PROJECT_DIR env ++ "/.env.example"
  if !env.pathExists env_file then
    match env.fsWriteError with
    | some e =>
      (some ⟨false, "Failed to create default .env file", e⟩,
       [.printedInfo
          ".env file not found, creating a default one with placeholder values..."])
    | none =>
      if env.pathExists env_example_file then
        (none,
         [.printedInfo
            ".env file not found, creating a default one with placeholder values...",
          .wroteFile env_file,
          .printedSuccess
            "Default .env file created from .env.example. Please update it with actual values if needed."])
      else
        (none,
         [.printedInfo
            ".env file not found, creating a default one with placeholder values...",
          .wroteFile env_example_file, .wroteFile env_file,
          .printedSuccess
            "Default .env file created from .env.example. Please update it with actual values if needed."])
  else (none, [])

/-- `api/api.py: _start_docker_compose` — spawns `docker compose up -d`
(with `--build` when asked) through `run_command` and then reads
`start_result.success` off the returned bool: `AttributeError` is raised
(the error case; `start_api_service`'s outer `try/except` catches it), so
the grace sleep and the status re-query are unreachable. -/
def _start_docker_compose (env : Env) (build : Bool) :
    Except PyError ApiOperationResult × List TraceEvent :=
  let command := ["docker", "compose", "up", "-d"] ++ (if build then ["--build"] else [])
  let sr := run_command env command (some (API_PROJECT_DIR env))
  (.error bool_success_attribute_error,
   [.printedInfo "Starting API service using Docker Compose..."] ++ sr.2)

/-- `api/api.py: start_api_service` — query status, take the already-running
fast path when reported running (dead in practice, since `get_api_status`
always reports not running), otherwise ensure the project (where a raised
`AttributeError` escapes uncaught), the compose file and the `.env` file,
then call `_start_docker_compose` inside a `try/except` that converts any
exception into the "Unexpected error starting API service" failure result. -/
def start_api_service (env : Env) (build : Bool) :
    Except PyError ApiOperationResult × List TraceEvent :=
  let st := get_api_status env
  if st.1.is_running then
    (.ok ⟨true,
      "API service already running on port " ++ pyShowOptInt st.1.port
        ++ pidSuffix st.1.pid, ""⟩,
     st.2)
  else
    match _check_and_setup_project env with
    | (.error e, t1) => (.error e, st.2 ++ t1)
    | (.ok (some r), t1) => (.ok r, st.2 ++ t1)
    | (.ok none, t1) =>
      match _check_docker_compose_file env with
      | (some r, t2) => (.ok r, st.2 ++ t1 ++ t2)
      | (none, t2) =>
        match _create_default_env_file env with
        | (some r, t3) => (.ok r, st.2 ++ t1 ++ t2 ++ t3)
        | (none, t3) =>
          match _start_docker_compose env build with
          | (.error e, t4) =>
            (.ok ⟨false, "Unexpected error starting API service", pyErrorText e⟩,
             st.2 ++ t1 ++ t2 ++ t3 ++ t4)
          | (.ok r, t4) => (.ok r, st.2 ++ t1 ++ t2 ++ t3 ++ t4)

/-! ## Project setup (`utils/fs.py`, `utils/git.py`, `commands/setup/models.py`,
`commands/setup/setup.py`) -/

/-- `setup/models.py: ProjectSetupResult` — `message` defaults to `""`. -/
structure ProjectSetupResult where
  success : Bool
  message : String
  project_path : Option String
deriving DecidableEq

/-- `setup/models.py: SetupOptions`. -/
structure SetupOptions where
  api_repo : String
  website_repo : String
  target_dir : String
  skip_api : Bool
  skip_website : Bool
deriving DecidableEq

/-- `SetupOptions.validate_target_dir` (a pydantic field validator): an empty
or blank value becomes `"foodtruck-projects"`, anything else is stripped. -/
def validate_target_dir (value : String) : String :=
  if value = "" || pyStrip value = "" then "foodtruck-projects" else pyStrip value

/-- `SetupOptions` as pydantic constructs it, with the `target_dir` validator
applied. -/
def SetupOptions.make (api_repo website_repo target_dir : String)
    (skip_api skip_website : Bool) : SetupOptions :=
  ⟨api_repo, website_repo, validate_target_dir target_dir, skip_api, skip_website⟩

/-- `SetupOptions.should_setup_api`. -/
def SetupOptions.should_setup_api (o : SetupOptions) : Bool := !o.skip_api

/-- `SetupOptions.should_setup_website`. -/
def SetupOptions.should_setup_website (o : SetupOptions) : Bool := !o.skip_website

/-- `utils/fs.py: create_dir` — resolve, `mkdir(parents=True, exist_ok=True)`,
return the resolved path. -/
def create_dir (env : Env) (target : String) : String × List TraceEvent :=
  let target_path := env.resolvePath target
  (target_path, [.madeDir target_path])

/-- `SetupOptions.get_target_path`. -/
def SetupOptions.get_target_path (o : SetupOptions) (env : Env) :
    String × List TraceEvent :=
  create_dir env o.target_dir

/-- `utils/fs.py: get_project_path`. -/
def get_project_path (base_path project_name : String) : String :=
  base_path ++ "/" ++ project_name

/-- `utils/fs.py: project_exists`. -/
def project_exists (env : Env) (base_path project_name : String) : Bool :=
  env.pathExists (base_path ++ "/" ++ project_name)

/-- `utils/git.py: clone_repository` — returns Python `None` when the target
already exists (skipping the clone) and otherwise the bool from
`run_command(["git", "clone", repo_url, target_path])`. -/
def clone_repository (env : Env) (repo_url target_path : String) :
    Option Bool × List TraceEvent :=
  if env.pathExists target_path then
    (none,
     [.printedClone ("Cloning " ++ repo_url ++ "..."),
      .printedWarning ("Directory " ++ target_path ++ " already exists. Skipping clone.")])
  else
    let r := run_command env ["git", "clone", repo_url, target_path] none
    (some r.1, [.printedClone ("Cloning " ++ repo_url ++ "...")] ++ r.2)

/-- Python truthiness of `clone_repository`'s return: `None` and `False` are
falsy. -/
def pyTruthy : Option Bool → Bool
  | none => false
  | some b => b

/-- `setup/setup.py: _install_api_dependencies` — `uv --version` then
`uv sync`, both in the project directory. -/
def _install_api_dependencies (env : Env) (project_path project_name : String) :
    ProjectSetupResult × List TraceEvent :=
  let v := run_command env ["uv", "--version"] (some project_path)
  if !v.1 then
    (⟨false, "UV is not available. Please install UV first.", none⟩,
     [.printedStep ("Setting up " ++ project_name ++ " dependencies...")] ++ v.2)
  else
    let s := run_command env ["uv", "sync"] (some project_path)
    if !s.1 then
      (⟨false, "Failed to install " ++ project_name ++ " dependencies.", none⟩,
       [.printedStep ("Setting up " ++ project_name ++ " dependencies...")]
         ++ v.2 ++ s.2)
    else
      (⟨true, project_name ++ " dependencies setup completed!", none⟩,
       [.printedStep ("Setting up " ++ project_name ++ " dependencies...")]
         ++ v.2 ++ s.2
         ++ [.printedSuccess (project_name ++ " dependencies setup completed!")])

/-- `setup/setup.py: _setup_project` — skip, already-exists, clone, and (for
names containing "api") dependency install. -/
def _setup_project (env : Env) (target_path project_name repo_url : String)
    (skip_flag : Bool) : ProjectSetupResult × List TraceEvent :=
  if skip_flag then
    (⟨true, "Skipping " ++ project_name ++ " setup", none⟩,
     [.printedSkip ("Skipping " ++ project_name ++ " setup")])
  else
    let project_path := get_project_path target_path project_name
    if project_exists env target_path project_name then
      (⟨true, "", some project_path⟩,
       [.printedInfo (project_name ++ " directory already exists, skipping clone")])
    else
      let c := clone_repository env repo_url project_path
      if !pyTruthy c.1 then
        (⟨false, "Failed to clone " ++ project_name, none⟩, c.2)
      else if pyIn "api" (pyToLower project_name) then
        let r := _install_api_dependencies env project_path project_name
        if !r.1.success then (r.1, c.2 ++ r.2)
        else (⟨true, "", some project_path⟩, c.2 ++ r.2)
      else (⟨true, "", some project_path⟩, c.2)

/-- `utils/console.py: print_setup_success_message`, as trace events. -/
def print_setup_success_message (target_path : String) : List TraceEvent :=
  [.printedSuccess "Setup completed successfully!",
   .printedInfo ("Projects created in: " ++ target_path),
   .printedStep "Next steps:"]

/-- `utils/console.py: print_setup_failure_message`, as trace events — note
the trailing `sys.exit(1)`. -/
def print_setup_failure_message (api_result website_result : ProjectSetupResult) :
    List TraceEvent :=
  [.printedError "Setup failed. Please check the errors above."]
    ++ (if !api_result.success && api_result.message != "" then
          [.printedError ("API: " ++ api_result.message)]
        else [])
    ++ (if !website_result.success && website_result.message != "" then
          [.printedError ("Website: " ++ website_result.message)]
        else [])
    ++ [.exitedWith 1]

/-- `setup/setup.py: setup_environment` — resolve and create the target
directory, run the per-project setup for `foodtruck-api` and
`foodtruck-website`, then report; the per-project results are returned here
so they can be observed. -/
def setup_environment (env : Env) (o : SetupOptions) :
    (ProjectSetupResult × ProjectSetupResult) × List TraceEvent :=
  let tp := o.get_target_path env
  let target_path := tp.1
  let api_result :=
    _setup_project env target_path "foodtruck-api" o.api_repo (!o.should_setup_api)
  let website_result :=
    _setup_project env target_path "foodtruck-website" o.website_repo
      (!o.should_setup_website)
  ((api_result.1, website_result.1),
   [.printedTitle "Food Truck Development Environment Setup", .printedSeparator]
     ++ tp.2 ++ [.printedInfo ("Target directory: " ++ target_path)]
     ++ api_result.2 ++ website_result.2
     ++ (if api_result.1.success && website_result.1.success then
           print_setup_success_message target_path
         else print_setup_failure_message api_result.1 website_result.1))

/-! ## Completion commands (`commands/completion/completion.py`) -/

/-- Python `Path.parent` on a POSIX-style path string. -/
def parentDir (p : String) : String :=
  let parts := (splitCharList (fun c => c = '/') p.data).map (fun l => String.mk l)
  if parts.length ≤ 1 then "." else joinWith "/" parts.dropLast

/-- `completion.py: get_spec_file_path` — the packaged `complete.yaml`. -/
def get_spec_file_path (env : Env) : String :=
  env.pkgDir ++ "/commands/completion/complete.yaml"

/-- `completion.py: get_carapace_config_dir`. -/
def get_carapace_config_dir (env : Env) : String :=
  if env.platformSystem = "Windows" then
    (env.appdata.getD (env.home ++ "/AppData/Roaming")) ++ "/carapace/specs"
  else env.home ++ "/.config/carapace/specs"

/-- `completion.py: get_shell_config_file` — `ValueError` for an unsupported
shell becomes the error case. -/
def get_shell_config_file (env : Env) (shell : String) : Except String String :=
  if shell = "bash" then .ok (env.home ++ "/.bashrc")
  else if shell = "zsh" then .ok (env.home ++ "/.zshrc")
  else if shell = "fish" then .ok (env.home ++ "/.config/fish/config.fish")
  else if shell = "powershell" then
    (if env.powershellProfile.getD "" != "" then .ok (env.powershellProfile.getD "")
     else .ok (env.home ++ "/Documents/PowerShell/Microsoft.PowerShell_profile.ps1"))
  else if shell = "cmd" then .ok (env.home ++ "/foodtruck_completion.bat")
  else .error ("Unsupported shell for config file: " ++ shell)

/-- `completion.py: get_shell_setup_commands` — the per-shell snippet; a
`ValueError` for an unsupported shell becomes the error case. -/
def get_shell_setup_commands (env : Env) (shell : String) (carapace_path : String) :
    Except String String :=
  let carapace_dir := parentDir carapace_path
  let carapace_dir_str :=
    if env.platformSystem = "Windows" then carapace_dir.replace "/" "\\"
    else carapace_dir
  let carapace_path_str :=
    if env.platformSystem = "Windows" then carapace_path.replace "/" "\\"
    else carapace_path
  if shell = "bash" then
    .ok ("# Add carapace to PATH\nexport PATH=\"" ++ carapace_dir_str
      ++ ":$PATH\"\n\n# Load all carapace completions\nsource <("
      ++ carapace_path_str ++ " _carapace)")
  else if shell = "zsh" then
    .ok ("# Add carapace to PATH\nexport PATH=\"" ++ carapace_dir_str
      ++ ":$PATH\"\n\n# Optional: Configure bridges\nexport CARAPACE_BRIDGES=\x27zsh,fish,bash,inshellisense\x27\n\n"
      ++ "# Optional: Configure completion style\nzstyle \x27:completion:*\x27 format $\x27\\e[2;37mCompleting %d\\e[m\x27\n\n"
      ++ "# Load all carapace completions\nsource <(" ++ carapace_path_str ++ " _carapace)")
  else if shell = "fish" then
    .ok ("# Add carapace to PATH\nset -Ux PATH \"" ++ carapace_dir_str
      ++ "\" $PATH\n\n# Optional: Configure bridges\nset -Ux CARAPACE_BRIDGES \x27zsh,fish,bash,inshellisense\x27\n\n"
      ++ "# Load all carapace completions\n" ++ carapace_path_str ++ " _carapace | source")
  else if shell = "powershell" then
    .ok ("# Add carapace to PATH\n$env:PATH = \"" ++ carapace_dir_str
      ++ ";\" + $env:PATH\n\n# Optional: Configure bridges\n$env:CARAPACE_BRIDGES = \x27zsh,fish,bash,inshellisense\x27\n\n"
      ++ "# Configure PowerShell completion\nSet-PSReadLineOption -Colors @\x7b \"Selection\" = \"`e[7m\" \x7d\n"
      ++ "Set-PSReadlineKeyHandler -Key Tab -Function MenuComplete\n\n"
      ++ "# Load all carapace completions\n" ++ carapace_path_str
      ++ " _carapace | Out-String | Invoke-Expression")
  else if shell = "cmd" then
    .ok ("# Add carapace to PATH\nset PATH=" ++ carapace_dir_str
      ++ ";%PATH%\n\n# Note: CMD completion is limited. Consider using PowerShell for better completion support.")
  else .error ("Unsupported shell: " ++ shell)

/-- `completion.py: save_carapace_spec` — ensure the config directory, then
copy the packaged spec there; `FileNotFoundError` when the packaged spec is
missing becomes the error case (the directory was already made by then). -/
def save_carapace_spec (env : Env) (spec_dir : String) :
    Except String String × List TraceEvent :=
  let spec_path := spec_dir ++ "/foodtruck.yaml"
  if !env.specFileExists then
    (.error ("Spec file not found: " ++ get_spec_file_path env), [.madeDir spec_dir])
  else (.ok spec_path, [.madeDir spec_dir, .wroteFile spec_path])

/-- `completion.py: auto_configure_shell` — append the setup snippet to the
shell configuration file unless a carapace block is already there; every
exception inside the `try` becomes a `False` return. -/
def auto_configure_shell (env : Env) (shell : String) (carapace_path : String) :
    Bool × List TraceEvent :=
  match get_shell_config_file env shell with
  | .error e =>
    (false, [.printedError ("Failed to auto-configure " ++ shell ++ ": " ++ e)])
  | .ok config_file =>
    match get_shell_setup_commands env shell carapace_path with
    | .error e =>
      (false, [.printedError ("Failed to auto-configure " ++ shell ++ ": " ++ e)])
    | .ok _setup_commands =>
      if env.pathExists config_file
          && pyIn "carapace" (env.readFile config_file)
          && pyIn "foodtruck" (env.readFile config_file) then
        (true, [.printedInfo ("Carapace configuration already exists in " ++ config_file)])
      else
        match env.fsWriteError with
        | some e =>
          (false, [.printedError ("Failed to auto-configure " ++ shell ++ ": " ++ e)])
        | none =>
          (true,
           [.wroteFile config_file,
            .printedSuccess ("Auto-configured " ++ shell ++ " completion in " ++ config_file)]
             ++ (if shell = "cmd" then
                   [.wroteFile (env.home ++ "/foodtruck_completion.bat"),
                    .printedSuccess ("Created CMD batch file: " ++ env.home
                      ++ "/foodtruck_completion.bat")]
                 else []))

/-- `completion.py: remove_carapace_spec`. -/
def remove_carapace_spec (env : Env) : Bool × List TraceEvent :=
  let spec_path := get_carapace_config_dir env ++ "/foodtruck.yaml"
  if env.pathExists spec_path then
    match env.fsWriteError with
    | some e => (false, [.printedError ("Failed to remove spec file: " ++ e)])
    | none =>
      (true, [.removedFile spec_path,
              .printedSuccess ("Removed existing spec file: " ++ spec_path)])
  else (true, [.printedWarning "No existing spec file found to remove"])

/-- `completion.py: remove_shell_config` — rewrite the shell configuration
file without its carapace lines (the rewritten text itself is not modelled;
the write is recorded as an event). -/
def remove_shell_config (env : Env) (shell : String) : Bool × List TraceEvent :=
  match get_shell_config_file env shell with
  | .error e =>
    (false, [.printedError ("Failed to remove shell configuration: " ++ e)])
  | .ok config_file =>
    if !env.pathExists config_file then
      (true, [.printedWarning ("Shell config file not found: " ++ config_file)])
    else
      match env.fsWriteError with
      | some e =>
        (false, [.printedError ("Failed to remove shell configuration: " ++ e)])
      | none =>
        (true, [.wroteFile config_file,
                .printedSuccess ("Removed carapace configuration from " ++ config_file)])

/-- `completion.py: refresh_carapace_completion` — remove the spec and the
shell block, then regenerate both; `sys.exit(1)` becomes a `some 1` exit
code. -/
def refresh_carapace_completion (env : Env) (shell : String) :
    Option Int × List TraceEvent :=
  let r1 := remove_carapace_spec env
  if !r1.1 then (some 1, [.printedInfo "Refreshing carapace completion..."] ++ r1.2)
  else
    let r2 := remove_shell_config env shell
    let w2 :=
      if !r2.1 then
        [TraceEvent.printedWarning "Failed to remove shell configuration, but continuing..."]
      else []
    match env.carapacePath with
    | none =>
      (some 1,
       [.printedInfo "Refreshing carapace completion..."] ++ r1.2 ++ r2.2 ++ w2
         ++ [.printedError "Carapace-bin not found. Please run the installation script first: python install.py"])
    | some carapace_path =>
      match save_carapace_spec env (get_carapace_config_dir env) with
      | (.error e, tw) =>
        (some 1,
         [.printedInfo "Refreshing carapace completion..."] ++ r1.2 ++ r2.2 ++ w2 ++ tw
           ++ [.printedError ("Error refreshing completion: " ++ e)])
      | (.ok sp, tw) =>
        let ac := auto_configure_shell env shell carapace_path
        (none,
         [.printedInfo "Refreshing carapace completion..."] ++ r1.2 ++ r2.2 ++ w2 ++ tw
           ++ [.printedSuccess ("New carapace spec saved to: " ++ sp),
               .printedInfo ("Auto-configuring " ++ shell ++ " completion...")]
           ++ ac.2
           ++ (if ac.1 then
                 [.printedSuccess ("Shell configuration completed! Restart your terminal or run \x27source "
                   ++ (match get_shell_config_file env shell with
                       | .ok f => f
                       | .error _ => "")
                   ++ "\x27 to activate.")]
               else
                 [.printedWarning "Auto-configuration failed. Please configure manually."])
           ++ [.printedSuccess "Completion refresh completed!"])

/-- `completion.py`: the list the validator checks against. -/
def supported_shells : List String := ["bash", "zsh", "fish", "powershell", "cmd"]

/-- The auto-detection block of `_get_shell_and_validate` (the branch taken
when no shell was specified): platform and the `SHELL` environment variable
decide. -/
def detect_shell (env : Env) : String :=
  if env.platformSystem = "Windows" then
    (if pyIn "powershell" (pyToLower (env.shellVar.getD "")) then "powershell" else "cmd")
  else
    let s := env.shellVar.getD "bash"
    if pyIn "zsh" s then "zsh" else if pyIn "fish" s then "fish" else "bash"

/-- `completion.py: _get_shell_and_validate` — auto-detect when the argument
is empty, validate against the supported list, and require carapace-bin;
each `sys.exit(1)` becomes the error case. -/
def _get_shell_and_validate (env : Env) (shell : String) :
    Except Int (String × String) × List TraceEvent :=
  let sh := if shell = "" then detect_shell env else shell
  if !supported_shells.contains sh then
    (.error 1,
     [.printedError ("Unsupported shell: " ++ sh),
      .printedError "Supported shells: bash, zsh, fish, powershell, cmd"])
  else
    match env.carapacePath with
    | none =>
      (.error 1,
       [.printedError "Carapace-bin not found. Please run the installation script first: python install.py"])
    | some p => (.ok (sh, p), [])

/-- `completion.py: completion_install_command` — note the body calls
`_get_shell_and_validate()` with no argument, so the `shell` parameter is
never consulted. -/
def completion_install_command (env : Env) (shell : String) (output : Option String) :
    Option Int × List TraceEvent :=
  match _get_shell_and_validate env "" with
  | (.error c, tr) => (some c, tr)
  | (.ok (sh, carapace_path), tr0) =>
    match get_shell_config_file env sh with
    | .error e => (some 1, tr0 ++ [.printedError ("Error: " ++ e)])
    | .ok config_file =>
      let spec_path := get_carapace_config_dir env ++ "/foodtruck.yaml"
      let already_installed :=
        env.pathExists config_file && env.pathExists spec_path
          && pyIn "carapace" (env.readFile config_file)
          && pyIn "foodtruck" (env.readFile config_file)
      if already_installed then
        (none,
         tr0 ++ [.printedInfo ("Completion already installed for " ++ sh),
                 .printedInfo "Use \x27foodtruck completion refresh\x27 to reinstall"])
      else
        match save_carapace_spec env (get_carapace_config_dir env) with
        | (.error e, tw) =>
          (some 1,
           tr0 ++ [.printedSuccess ("Installing carapace completion for " ++ sh ++ "...")]
             ++ tw ++ [.printedError ("Error: " ++ e)])
        | (.ok sp, tw) =>
          let ac := auto_configure_shell env sh carapace_path
          (none,
           tr0 ++ [.printedSuccess ("Installing carapace completion for " ++ sh ++ "...")]
             ++ tw
             ++ [.printedSuccess ("Carapace spec saved to: " ++ sp),
                 .printedInfo ("Auto-configuring " ++ sh ++ " completion...")]
             ++ ac.2
             ++ (if ac.1 then
                   [.printedSuccess ("Shell configuration completed! Restart your terminal or run \x27source "
                     ++ config_file ++ "\x27 to activate.")]
                 else
                   [.printedWarning "Auto-configuration failed. Please configure manually."])
             ++ [.printedSuccess "Completion installation completed!"])

/-- `completion.py: completion_refresh_command` — also calls
`_get_shell_and_validate()` with no argument, discarding its `shell`
parameter. -/
def completion_refresh_command (env : Env) (shell : String) :
    Option Int × List TraceEvent :=
  match _get_shell_and_validate env "" with
  | (.error c, tr) => (some c, tr)
  | (.ok (sh, _), tr0) =>
    let r := refresh_carapace_completion env sh
    (r.1, tr0 ++ r.2)

/-- `completion.py: completion_manual_command` — the only completion command
that passes its `shell` argument through to `_get_shell_and_validate`. -/
def completion_manual_command (env : Env) (shell : String) (output : Option String) :
    Option Int × List TraceEvent :=
  match _get_shell_and_validate env shell with
  | (.error c, tr) => (some c, tr)
  | (.ok (sh, carapace_path), tr0) =>
    match get_shell_setup_commands env sh carapace_path with
    | .error e => (some 1, tr0 ++ [.printedError ("Error: " ++ e)])
    | .ok setup_commands =>
      match output with
      | none =>
        (none,
         tr0 ++ [.printedSuccess ("To enable completion for " ++ sh
                   ++ ", add this to your shell configuration:"),
                 .printedWarning setup_commands])
      | some out =>
        match env.fsWriteError with
        | some e =>
          (some 1,
           tr0 ++ [.printedSuccess ("To enable completion for " ++ sh
                     ++ ", add this to your shell configuration:"),
                   .printedWarning setup_commands,
                   .printedError ("Error: " ++ e)])
        | none =>
          (none,
           tr0 ++ [.printedSuccess ("To enable completion for " ++ sh
                     ++ ", add this to your shell configuration:"),
                   .printedWarning setup_commands,
                   .wroteFile out,
                   .printedSuccess ("Setup commands saved to: " ++ out)])

/-! ## General lemmas about the substring test and the runners -/

theorem run_command_prints_no_spawn (cmd : List String) (oc : SpawnOutcome) :
    spawnedCmds (run_command_prints cmd oc) = [] := by
  cases oc with
  | exited code out err =>
    simp only [run_command_prints]
    split
    · split <;> rfl
    · rfl
  | timedOut => rfl
  | notFound => rfl
  | permissionDenied => rfl
  | otherError msg => rfl

theorem spawnedCmds_append (a b : List TraceEvent) :
    spawnedCmds (a ++ b) = spawnedCmds a ++ spawnedCmds b := by
  simp [spawnedCmds]

theorem run_command_spawnedCmds (env : Env) (cmd : List String) (cwd : Option String) :
    spawnedCmds (run_command env cmd cwd).2 = if cmd.isEmpty then [] else [cmd] := by
  unfold run_command
  split
  · rfl
  · dsimp only
    rw [spawnedCmds_append, run_command_prints_no_spawn]
    rfl

/-! ## Claim theorems -/

/-- C4: for the empty command list, `run_command` returns a failure status
(`success = false`) without spawning any subprocess; the embedding is total,
so no exception can escape. -/
theorem run_command_empty_fails (env : Env) (cwd : Option String) :
    (run_command env [] cwd).1 = false ∧
      spawnedCmds (run_command env [] cwd).2 = [] :=
  ⟨rfl, rfl⟩

/-- C7: a project with the skip flag set yields success with the skipping
message, for every environment (filesystem or network state), and its trace
spawns no external command. -/
theorem setup_project_skip (env : Env) (target_path project_name repo_url : String) :
    (_setup_project env target_path project_name repo_url true).1.success = true ∧
    (_setup_project env target_path project_name repo_url true).1.message
      = "Skipping " ++ project_name ++ " setup" ∧
    spawnedCmds (_setup_project env target_path project_name repo_url true).2 = [] :=
  ⟨rfl, rfl, rfl⟩

/-- C1 (code bug evaluation): each probe's call
`run_command(..., timeout=30)` raises `TypeError` — utils/run_command.py
accepts no `timeout` parameter — so, for every environment, every probe lets
that exception escape without spawning any subprocess or returning a
`DependencyStatus`. -/
theorem dependency_probes_raise (env : Env) :
    check_python_version env = (Except.error timeout_kwarg_error, []) ∧
    check_uv env = (Except.error timeout_kwarg_error, []) ∧
    check_git env = (Except.error timeout_kwarg_error, []) ∧
    check_docker env = (Except.error timeout_kwarg_error, []) ∧
    check_docker_daemon env = (Except.error timeout_kwarg_error, []) :=
  ⟨rfl, rfl, rfl, rfl, rfl⟩

/-- C3 (code bug evaluation): the aggregate check never completes — the
first dict entry raises the probes' `TypeError`, which propagates out of
`perform_dependency_checks`, so the five probes do not all run and no
`CheckResult` (hence no `all_ok`) is ever built. -/
theorem perform_dependency_checks_raises (env : Env) :
    perform_dependency_checks env = (Except.error timeout_kwarg_error, []) :=
  rfl

/-! ## Api claims -/

/-- A neutral world: every spawn fails with `FileNotFoundError`, no path
exists, and no tool is installed. -/
def baseEnv : Env where
  spawn := fun _ _ _ => SpawnOutcome.notFound
  pythonExe := "python3"
  pathExists := fun _ => false
  resolvePath := fun p => p
  dirEntries := fun _ => []
  pkgDir := "/opt/foodtruck_cli"
  readFile := fun _ => ""
  platformSystem := "Linux"
  shellVar := some "/bin/bash"
  appdata := none
  powershellProfile := none
  home := "/home/dev"
  carapacePath := none
  specFileExists := true
  fsWriteError := none

/-- C9: `get_api_status` never raises — its `try/except` catches the
`AttributeError` the body hits at `result.success` — and returns an
`ApiStatus`; in every world it reports `is_running = false` with pid and
port unset (in particular whenever the listing query does not succeed),
after spawning exactly the `docker ps` listing query. -/
theorem get_api_status_never_running (env : Env) :
    (get_api_status env).1 = ⟨false, none, none⟩ ∧
    spawnedCmds (get_api_status env).2 = [api_ps_command] := by
  refine ⟨rfl, ?_⟩
  unfold get_api_status
  dsimp only
  rw [spawnedCmds_append, run_command_spawnedCmds]
  rfl

/-- A world where `docker ps` reports a running `foodtruck-api` container
("abc123 Up 5 minutes") and the project directory, compose file and `.env`
all exist. -/
def envRunning : Env :=
  { baseEnv with
    spawn := fun cmd _ _ =>
      if cmd = api_ps_command then .exited 0 "abc123 Up 5 minutes" ""
      else .exited 0 "" ""
    pathExists := fun _ => true }

/-- C2 (code bug evaluation): even in a world where the listing query
succeeds and reports a running container, `get_api_status` reports not
running (the `AttributeError` at `result.success` is swallowed), so
`start_api_service` skips the idempotent fast path, spawns
`docker compose up -d`, and returns a failure result built from the
`AttributeError` caught around `_start_docker_compose` — not the immediate
success with the existing port and no up invocation that the claim
requires. -/
theorem start_api_service_bug :
    envRunning.spawn api_ps_command none 300
      = SpawnOutcome.exited 0 "abc123 Up 5 minutes" "" ∧
    (get_api_status envRunning).1.is_running = false ∧
    (start_api_service envRunning false).1 =
      Except.ok ⟨false, "Unexpected error starting API service",
        pyErrorText bool_success_attribute_error⟩ ∧
    ["docker", "compose", "up", "-d"] ∈
      spawnedCmds (start_api_service envRunning false).2 :=
  ⟨by decide, rfl, rfl, by decide⟩

/-! ## Setup claims -/

/-- A world in which every path already exists on disk. -/
def env5 : Env := { baseEnv with pathExists := fun _ => true }

/-- C5 (as frozen, refuted): when the project directory already exists,
`_setup_project` does return success, but the returned result's message is
empty — the "already exists, skipping clone" note goes only to the console —
so "a success result whose message says the directory already exists" fails
at this input. -/
theorem setup_project_existing_dir_empty_message :
    (_setup_project env5 "/projects" "foodtruck-api"
        "https://example.com/api.git" false).1.success = true ∧
    (_setup_project env5 "/projects" "foodtruck-api"
        "https://example.com/api.git" false).1.message = "" ∧
    pyIn "already exists"
      (_setup_project env5 "/projects" "foodtruck-api"
        "https://example.com/api.git" false).1.message = false :=
  ⟨by decide, by decide, by decide⟩

/-- C5 (amended): when the target directory already exists, `_setup_project`
returns success with the project path set and an empty result message, the
"already exists, skipping clone" note is printed to the console, and —
the trace being that single print — neither the clone nor the
dependency-install step spawns any command. -/
theorem setup_project_existing_dir (env : Env)
    (target_path project_name repo_url : String)
    (h : project_exists env target_path project_name = true) :
    _setup_project env target_path project_name repo_url false =
      (⟨true, "", some (get_project_path target_path project_name)⟩,
       [.printedInfo (project_name ++ " directory already exists, skipping clone")]) := by
  simp [_setup_project, h]

theorem setup_project_existing_dir_witness :
    project_exists env5 "/projects" "foodtruck-api" = true ∧
    _setup_project env5 "/projects" "foodtruck-api"
        "https://example.com/api.git" false =
      (⟨true, "", some (get_project_path "/projects" "foodtruck-api")⟩,
       [.printedInfo ("foodtruck-api" ++ " directory already exists, skipping clone")]) :=
  ⟨rfl, setup_project_existing_dir env5 "/projects" "foodtruck-api"
    "https://example.com/api.git" rfl⟩

/-- A world where nothing exists on disk and every spawn fails with exit
code 128 and a git error on stderr. -/
def env6 : Env :=
  { baseEnv with
    spawn := fun _ _ _ => .exited 128 "" "fatal: repository not found" }

theorem clone_repository_spawnedCmds (env : Env) (repo_url target_path : String)
    (h : env.pathExists target_path = false) :
    spawnedCmds (clone_repository env repo_url target_path).2 =
      [["git", "clone", repo_url, target_path]] := by
  unfold clone_repository
  rw [h]
  dsimp only
  rw [if_neg (by decide)]
  dsimp only
  rw [spawnedCmds_append, run_command_spawnedCmds]
  rfl

/-- C6 (as frozen, refuted): when the clone fails, the result is a failure
and the install step never runs, but its message is the generic
"Failed to clone foodtruck-api" — the clone's stderr
("fatal: repository not found") is printed to the console by the process
runner, not carried in the result — so "the clone's error detail as its
message" fails at this input. -/
theorem setup_project_clone_failure_message :
    (_setup_project env6 "/projects" "foodtruck-api"
        "https://example.com/api.git" false).1.success = false ∧
    (_setup_project env6 "/projects" "foodtruck-api"
        "https://example.com/api.git" false).1.message = "Failed to clone foodtruck-api" ∧
    pyIn "fatal"
      (_setup_project env6 "/projects" "foodtruck-api"
        "https://example.com/api.git" false).1.message = false ∧
    TraceEvent.printedError
        ("Error running \x27git clone https://example.com/api.git /projects/foodtruck-api\x27: fatal: repository not found")
      ∈ (_setup_project env6 "/projects" "foodtruck-api"
          "https://example.com/api.git" false).2 ∧
    spawnedCmds (_setup_project env6 "/projects" "foodtruck-api"
        "https://example.com/api.git" false).2 =
      [["git", "clone", "https://example.com/api.git", "/projects/foodtruck-api"]] :=
  ⟨by decide, by decide, by decide, by decide, by decide⟩

/-- C6 (amended): when the clone step fails for a project, `_setup_project`
returns failure with the message "Failed to clone <name>" (the underlying
stderr is printed to the console, not carried in the result), and the only
spawned command is the clone itself — the post-clone install step is never
invoked. -/
theorem setup_project_clone_failure (env : Env)
    (target_path project_name repo_url : String)
    (h1 : project_exists env target_path project_name = false)
    (h2 : pyTruthy (clone_repository env repo_url
            (get_project_path target_path project_name)).1 = false) :
    (_setup_project env target_path project_name repo_url false).1 =
      ⟨false, "Failed to clone " ++ project_name, none⟩ ∧
    ∀ c, c ∈ spawnedCmds (_setup_project env target_path project_name repo_url false).2 →
      c = ["git", "clone", repo_url, get_project_path target_path project_name] := by
  have hs : _setup_project env target_path project_name repo_url false =
      (⟨false, "Failed to clone " ++ project_name, none⟩,
       (clone_repository env repo_url (get_project_path target_path project_name)).2) := by
    simp [_setup_project, h1, h2]
  rw [hs]
  refine ⟨rfl, ?_⟩
  intro c hc
  rw [clone_repository_spawnedCmds env repo_url (get_project_path target_path project_name) h1] at hc
  exact List.mem_singleton.mp hc

theorem setup_project_clone_failure_witness :
    project_exists env6 "/projects" "foodtruck-api" = false ∧
    pyTruthy (clone_repository env6 "https://example.com/api.git"
        (get_project_path "/projects" "foodtruck-api")).1 = false ∧
    ((_setup_project env6 "/projects" "foodtruck-api"
        "https://example.com/api.git" false).1 =
      ⟨false, "Failed to clone " ++ "foodtruck-api", none⟩ ∧
     ∀ c, c ∈ spawnedCmds (_setup_project env6 "/projects" "foodtruck-api"
         "https://example.com/api.git" false).2 →
       c = ["git", "clone", "https://example.com/api.git",
            get_project_path "/projects" "foodtruck-api"]) :=
  ⟨rfl, by decide,
   setup_project_clone_failure env6 "/projects" "foodtruck-api"
     "https://example.com/api.git" rfl (by decide)⟩

/-- A world whose target directory already contains an entry, yet where
every spawn succeeds. -/
def env8 : Env :=
  { baseEnv with
    spawn := fun _ _ _ => .exited 0 "" ""
    dirEntries := fun _ => ["leftover"] }

/-- The options `setup all` builds for target directory "tgt". -/
def opts8 : SetupOptions :=
  SetupOptions.make "https://example.com/api.git" "https://example.com/website.git"
    "tgt" false false

/-- C8 (as frozen, refuted): the target directory already contains an entry,
yet `setup_environment` proceeds straight into the per-project loop — the
clone is spawned and no configuration error (no `sys.exit`) is signalled.
The emptiness refusal exists only in the superseded flat draft
`commands/setup.py`, which the package `commands/setup/` shadows. -/
theorem setup_environment_ignores_entries :
    env8.dirEntries (env8.resolvePath "tgt") = ["leftover"] ∧
    ["git", "clone", "https://example.com/api.git", "tgt/foodtruck-api"] ∈
      spawnedCmds (setup_environment env8 opts8).2 ∧
    hasExit (setup_environment env8 opts8).2 = false :=
  ⟨rfl, by decide, by decide⟩

/-- C8 (amended): at the top level of setup the target directory is ensured
(created if missing, kept if present), and the per-project loop always runs
for both projects — no check of the directory's entries is made and no
configuration error is raised beforehand; the directory-entry oracle is
never consulted. -/
theorem setup_environment_top_level (env : Env) (o : SetupOptions) :
    TraceEvent.madeDir (env.resolvePath o.target_dir) ∈ (setup_environment env o).2 ∧
    (setup_environment env o).1.1 =
      (_setup_project env (env.resolvePath o.target_dir) "foodtruck-api"
        o.api_repo o.skip_api).1 ∧
    (setup_environment env o).1.2 =
      (_setup_project env (env.resolvePath o.target_dir) "foodtruck-website"
        o.website_repo o.skip_website).1 := by
  refine ⟨?_, ?_, ?_⟩
  · simp [setup_environment, SetupOptions.get_target_path, create_dir]
  · simp [setup_environment, SetupOptions.get_target_path, create_dir,
      SetupOptions.should_setup_api, Bool.not_not]
  · simp [setup_environment, SetupOptions.get_target_path, create_dir,
      SetupOptions.should_setup_website, Bool.not_not]

/-! ## Completion claim -/

theorem detect_shell_supported (env : Env) :
    supported_shells.contains (detect_shell env) = true := by
  unfold detect_shell supported_shells
  split
  · split <;> rfl
  · dsimp only
    split
    · rfl
    · split <;> rfl

theorem get_shell_setup_commands_ok (env : Env) (sh path : String)
    (hs : supported_shells.contains sh = true) :
    ∃ t, get_shell_setup_commands env sh path = Except.ok t := by
  have hmem : sh = "bash" ∨ sh = "zsh" ∨ sh = "fish" ∨ sh = "powershell" ∨ sh = "cmd" := by
    simpa [supported_shells] using hs
  rcases hmem with rfl | rfl | rfl | rfl | rfl <;> exact ⟨_, rfl⟩

theorem get_shell_and_validate_direct (env : Env) (s p : String)
    (hne : s ≠ "") (hs : supported_shells.contains s = true)
    (hp : env.carapacePath = some p) :
    _get_shell_and_validate env s = (Except.ok (s, p), []) := by
  unfold _get_shell_and_validate
  dsimp only
  rw [if_neg hne, hs, hp]
  rfl

/-- C10: the completion `install` and `refresh` operations discard their
`shell` argument entirely (their outcome for any supplied shell equals the
outcome for none), the validator they call auto-detects the shell from the
platform and the `SHELL` variable, and only the `manual` operation uses the
supplied shell. -/
theorem completion_shell_argument (env : Env) (s : String) (o : Option String)
    (p : String) (hp : env.carapacePath = some p)
    (hs : supported_shells.contains s = true) (hne : s ≠ "") :
    completion_install_command env s o = completion_install_command env "" o ∧
    completion_refresh_command env s = completion_refresh_command env "" ∧
    (_get_shell_and_validate env "").1 = Except.ok (detect_shell env, p) ∧
    TraceEvent.printedSuccess ("To enable completion for " ++ s
        ++ ", add this to your shell configuration:")
      ∈ (completion_manual_command env s o).2 := by
  refine ⟨rfl, rfl, ?_, ?_⟩
  · unfold _get_shell_and_validate
    dsimp only
    rw [if_pos rfl, detect_shell_supported env, hp]
    rfl
  · obtain ⟨t, ht⟩ := get_shell_setup_commands_ok env s p hs
    unfold completion_manual_command
    rw [get_shell_and_validate_direct env s p hne hs hp]
    dsimp only
    rw [ht]
    cases o with
    | none => simp
    | some out =>
      cases henv : env.fsWriteError <;> simp

def envC10 : Env :=
  { baseEnv with
    carapacePath := some "/usr/local/bin/carapace"
    shellVar := some "/usr/bin/zsh" }

theorem completion_shell_argument_witness :
    envC10.carapacePath = some "/usr/local/bin/carapace" ∧
    supported_shells.contains "bash" = true ∧
    "bash" ≠ "" ∧
    (completion_install_command envC10 "bash" none
        = completion_install_command envC10 "" none ∧
     completion_refresh_command envC10 "bash" = completion_refresh_command envC10 "" ∧
     (_get_shell_and_validate envC10 "").1
        = Except.ok (detect_shell envC10, "/usr/local/bin/carapace") ∧
     TraceEvent.printedSuccess ("To enable completion for " ++ "bash"
         ++ ", add this to your shell configuration:")
       ∈ (completion_manual_command envC10 "bash" none).2) :=
  ⟨rfl, rfl, by decide,
   completion_shell_argument envC10 "bash" none "/usr/local/bin/carapace" rfl rfl
     (by decide)⟩

end FoodTruck
